import Mathlib

/-!
Verification of the Document-Tracking application's CRUD core.

The development shallowly embeds the two mock-backend variants of the
repository: the remote JSON-store variant (src/app/api/upload/upload.js,
namespace `Remote`) and the localStorage variant (src/index.tsx, namespace
`Local`), together with the pure filtering predicate of
`updateDocumentsView`, the submission guards of the UI handlers, and the
pages-router upload endpoint (src/api/upload.js).

Asynchronous network effects are embedded by passing the outcome of each
network interaction explicitly (an environment record per operation) and by
returning, alongside the response and the successor state, the ordered list
of network calls the operation issued.
-/

/-- Strings are modelled as lists of characters. -/
abbrev Str := List Char

/-- JavaScript `s.toLowerCase()`, character by character. -/
def lowerStr (s : Str) : Str := s.map Char.toLower

/-- Test whether `needle` matches at the very start of `hay`. -/
def leadingMatch : Str → Str → Bool
  | [], _ => true
  | _ :: _, [] => false
  | a :: as, b :: bs => a == b && leadingMatch as bs

/-- JavaScript `hay.includes(needle)` for strings: `needle` occurs as a
contiguous run somewhere in `hay`. -/
def containsSub (needle : Str) : Str → Bool
  | [] => leadingMatch needle []
  | c :: rest => leadingMatch needle (c :: rest) || containsSub needle rest

/-- Document record (interface `AppDocument` in both variants). The
`division` and `status` fields are string-typed in the source (string
literal union types) and are compared as strings. -/
structure AppDocument where
  id : Nat
  name : Str
  division : Str
  status : Str
  fileName : Str
  fileUrl : Str
deriving DecidableEq, Repr

/-- Uploaded file: only the name and byte size are inspected by the logic. -/
structure FileV where
  name : Str
  size : Nat
deriving DecidableEq, Repr

/-- Fields the create operations read from the upload form's `FormData`. -/
structure FormDataV where
  file : Option FileV
  name : Str
  division : Str
  status : Str
deriving DecidableEq, Repr

/-- Filter state (the module-level `filters` object). -/
structure Filters where
  division : Str
  status : Str
  search : Str
deriving DecidableEq, Repr

/-- Sentinel value of the division and status filters. -/
def allStr : Str := "all".data

/-- Predicate applied by `updateDocumentsView`
(src/app/api/upload/upload.js lines 478-483; identical in src/index.tsx
lines 400-405): case-insensitive substring match of the search text against
`name` or `fileName`, conjoined with division and status match-or-all. -/
def docMatches (filters : Filters) (doc : AppDocument) : Bool :=
  (containsSub (lowerStr filters.search) (lowerStr doc.name)
      || containsSub (lowerStr filters.search) (lowerStr doc.fileName))
    && (filters.division == allStr || doc.division == filters.division)
    && (filters.status == allStr || doc.status == filters.status)

/-- Visible subset computed by `updateDocumentsView`:
`documents.filter(doc => searchMatch && divisionMatch && statusMatch)`. -/
def filteredDocs (filters : Filters) (documents : List AppDocument) : List AppDocument :=
  documents.filter (docMatches filters)

/-- Expression `docs.reduce((max, doc) => Math.max(max, doc.id), 0)` used to
derive the last assigned id in both variants. -/
def maxId (docs : List AppDocument) : Nat :=
  docs.foldl (fun m doc => max m doc.id) 0

/-- Lookup in the modelled `mockFileStore` (JavaScript `Map.get`); the map
is embedded as an association list where `set` conses a binding in front. -/
def storeGet (store : List (Nat × FileV)) (k : Nat) : Option FileV :=
  (store.find? (fun p => p.1 == k)).map (·.2)

/-- Outcome site of a create response: mirrors the four `return` sites of
the create operations, whose error messages carry distinct fixed prefixes
(`File is required and cannot be empty.`, `File upload failed:`,
`Metadata update failed:`). -/
inductive CreatePayload
  | created (doc : AppDocument)
  | validationError
  | uploadError (msg : Str)
  | metadataError (msg : Str)
deriving DecidableEq, Repr

/-- Response shape of the create operations. -/
structure CreateResp where
  ok : Bool
  status : Nat
  payload : CreatePayload
deriving DecidableEq, Repr

/-- Outcome site of a delete response. -/
inductive DeletePayload
  | deleted
  | notFoundMsg
  | failure (msg : Str)
deriving DecidableEq, Repr

/-- Response shape of the delete operations. -/
structure DeleteResp where
  ok : Bool
  status : Nat
  payload : DeletePayload
deriving DecidableEq, Repr

/-- Recogniser for the metadata-stage error site of a create response. -/
def isMetadataError : CreatePayload → Bool
  | .metadataError _ => true
  | _ => false

/-- Projection returning the id of a successfully created document. -/
def createdId (resp : CreateResp) : Option Nat :=
  match resp.payload with
  | .created doc => some doc.id
  | _ => none

namespace Remote

/-- Network calls the remote-store operations can issue, in program order. -/
inductive Ev
  | uploadCall
  | fetchCall
  | putCall
deriving DecidableEq, Repr

/-- Outcome of the HTTP GET issued by `mockApiFetchDocuments`: a 200 whose
body's `record` field may be absent, a 404, another error status, or a
thrown network error. -/
inductive FetchOutcome
  | success (recordPresent : Bool)
  | notFound404
  | httpError (status : Nat)
  | networkError (msg : Str)
deriving DecidableEq, Repr

/-- Outcome of the POST to `/api/upload` issued by `mockApiCreateDocument`:
an ok response whose JSON body's `url` field may be absent, a non-ok
response, or a thrown network error. -/
inductive UploadOutcome
  | ok (url : Option Str)
  | httpError (status : Nat) (text : Str)
  | networkError (msg : Str)
deriving DecidableEq, Repr

/-- Environment of one run of the remote `mockApiCreateDocument`: outcomes
of the three network interactions it may perform. -/
structure CreateEnv where
  upload : UploadOutcome
  fetch : FetchOutcome
  putOk : Bool
deriving DecidableEq, Repr

/-- Environment of one run of the remote `mockApiDeleteDocument`. -/
structure DeleteEnv where
  fetch : FetchOutcome
  putOk : Bool
deriving DecidableEq, Repr

/-- State touched by the remote-store operations: the remote collection
(the shared JSON bin, replaced wholesale by a successful PUT) and the
session-local `mockFileStore`. -/
structure State where
  collection : List AppDocument
  fileStore : List (Nat × FileV)
deriving DecidableEq, Repr

/-- Function `mockApiFetchDocuments` of src/app/api/upload/upload.js lines
58-83, as the value its `json()` resolves to: `.ok docs` models the
`ok: true` shapes (a 200 whose `record` defaults to the empty list, and a
404 treated as the empty list), `.error msg` models the `ok: false` shape
whose body carries a message. -/
def mockApiFetchDocuments (store : List AppDocument) : FetchOutcome → Except Str (List AppDocument)
  | .success recordPresent => .ok (if recordPresent then store else [])
  | .notFound404 => .ok []
  | .httpError status =>
      .error ("Network response was not ok, status: ".data ++ (toString status).data)
  | .networkError msg => .error msg

/-- Function `mockApiCreateDocument` of src/app/api/upload/upload.js lines
85-154. Returns the response, the state after the run, and the ordered
network calls issued. Step 1 validates the file and uploads it; step 2
reads the current collection (an unreadable collection yields a non-array
`currentDocs`, so `lastId` falls back to 0 and the PUT body starts from the
empty list), inserts the file into `mockFileStore`, and PUTs the whole
updated list. -/
def mockApiCreateDocument (env : CreateEnv) (formData : FormDataV) (s : State) :
    CreateResp × State × List Ev :=
  match formData.file with
  | none => (⟨false, 400, .validationError⟩, s, [])
  | some file =>
    if file.size = 0 then (⟨false, 400, .validationError⟩, s, [])
    else
      match env.upload with
      | .httpError status text =>
          (⟨false, 500, .uploadError
              ("File upload failed: Failed to upload file to blob storage: ".data
                ++ (toString status).data ++ " ".data ++ text)⟩, s, [.uploadCall])
      | .networkError msg =>
          (⟨false, 500, .uploadError ("File upload failed: ".data ++ msg)⟩, s, [.uploadCall])
      | .ok none =>
          (⟨false, 500, .uploadError
              "File upload failed: Blob storage response did not include a URL.".data⟩,
            s, [.uploadCall])
      | .ok (some url) =>
          let currentDocs := mockApiFetchDocuments s.collection env.fetch
          let lastId := match currentDocs with
            | .ok docs => maxId docs
            | .error _ => 0
          let newDocument : AppDocument :=
            ⟨lastId + 1, formData.name, formData.division, formData.status, file.name, url⟩
          let fileStore1 := (newDocument.id, file) :: s.fileStore
          let updatedDocs :=
            (match currentDocs with | .ok docs => docs | .error _ => []) ++ [newDocument]
          if env.putOk then
            (⟨true, 201, .created newDocument⟩, ⟨updatedDocs, fileStore1⟩,
              [.uploadCall, .fetchCall, .putCall])
          else
            (⟨false, 500, .metadataError
                "Metadata update failed: Failed to update metadata database".data⟩,
              ⟨s.collection, fileStore1⟩, [.uploadCall, .fetchCall, .putCall])

/-- Function `mockApiDeleteDocument` of src/app/api/upload/upload.js lines
156-189. When the inner fetch failed, `currentDocs` is the error object and
`currentDocs.filter` throws a TypeError that lands in the catch block
(status 500, no PUT). Otherwise the filtered list is compared by length to
detect a missing id before any write. -/
def mockApiDeleteDocument (env : DeleteEnv) (docId : Nat) (s : State) :
    DeleteResp × State × List Ev :=
  match mockApiFetchDocuments s.collection env.fetch with
  | .error _ =>
      (⟨false, 500, .failure "currentDocs.filter is not a function".data⟩, s, [.fetchCall])
  | .ok currentDocs =>
    let updatedDocs := currentDocs.filter (fun doc => doc.id != docId)
    if updatedDocs.length = currentDocs.length then
      (⟨false, 404, .notFoundMsg⟩, s, [.fetchCall])
    else
      let fileStore1 := s.fileStore.filter (fun p => p.1 != docId)
      if env.putOk then
        (⟨true, 204, .deleted⟩, ⟨updatedDocs, fileStore1⟩, [.fetchCall, .putCall])
      else
        (⟨false, 500, .failure "Failed to update database".data⟩,
          ⟨s.collection, fileStore1⟩, [.fetchCall, .putCall])

end Remote

namespace Local

/-- State of the localStorage-backed variant (src/index.tsx): the
module-level `mockDatabase`, the module-level `lastId` counter, and the
session-local `mockFileStore`. -/
structure State where
  mockDatabase : List AppDocument
  lastId : Nat
  fileStore : List (Nat × FileV)
deriving DecidableEq, Repr

/-- Module initialisation values of src/index.tsx lines 23-29:
`mockDatabase = []`, `lastId = 0`, `mockFileStore` empty. -/
def initState : State := ⟨[], 0, []⟩

/-- Contents of the `docTrackDb` localStorage key as `loadDatabase` sees
them: absent, present but not valid JSON (`JSON.parse` throws), or present
and parsed to a list of records. -/
inductive StoredDb
  | absent
  | corrupt
  | valid (docs : List AppDocument)
deriving DecidableEq, Repr

/-- Function `loadDatabase` of src/index.tsx lines 31-45. On a parse
failure the catch block resets `mockDatabase` to the (empty) initial
database but never reaches the `lastId` assignment, leaving the counter at
its previous value. When the key is absent the empty initial database is
persisted and `lastId` is recomputed over it (yielding 0). -/
def loadDatabase (stored : StoredDb) (s : State) : State :=
  match stored with
  | .valid docs => ⟨docs, maxId docs, s.fileStore⟩
  | .absent => ⟨[], maxId [], s.fileStore⟩
  | .corrupt => ⟨[], s.lastId, s.fileStore⟩

/-- Function `mockApiFetchDocuments` of src/index.tsx lines 58-68: always
resolves `ok: true, status: 200` with a deep copy of the database. -/
def mockApiFetchDocuments (s : State) : Bool × Nat × List AppDocument :=
  (true, 200, s.mockDatabase)

/-- Base of the simulated Vercel Blob URL of src/index.tsx line 86; the
percent-encoding of the file name is kept abstract as the name itself. -/
def simulatedBlobUrl (fileName : Str) : Str :=
  "https://cphjajpsplwz98pq.public.blob.vercel-storage.com/".data ++ fileName

/-- Function `mockApiCreateDocument` of src/index.tsx lines 70-99: after
the file validation it increments the module counter `lastId`, assigns that
value as the id, stores the file in `mockFileStore`, appends the record and
persists the database. -/
def mockApiCreateDocument (formData : FormDataV) (s : State) : CreateResp × State :=
  match formData.file with
  | none => (⟨false, 400, .validationError⟩, s)
  | some file =>
    if file.size = 0 then (⟨false, 400, .validationError⟩, s)
    else
      let lastId := s.lastId + 1
      let newDocument : AppDocument :=
        ⟨lastId, formData.name, formData.division, formData.status, file.name,
          simulatedBlobUrl file.name⟩
      (⟨true, 201, .created newDocument⟩,
        ⟨s.mockDatabase ++ [newDocument], lastId, (lastId, file) :: s.fileStore⟩)

/-- Function `mockApiDeleteDocument` of src/index.tsx lines 101-123:
`findIndex` then `splice(index, 1)` removes the first record whose id
matches; a missing id resolves 404 with no state change. -/
def mockApiDeleteDocument (docId : Nat) (s : State) : DeleteResp × State :=
  if s.mockDatabase.any (fun doc => doc.id == docId) then
    (⟨true, 204, .deleted⟩,
      ⟨s.mockDatabase.eraseP (fun doc => doc.id == docId), s.lastId,
        s.fileStore.filter (fun p => p.1 != docId)⟩)
  else
    (⟨false, 404, .notFoundMsg⟩, s)

end Local

/-- UI state fields relevant to the submission guards (module-level `let`
bindings of both variants). -/
structure UIState where
  isSubmitting : Bool
  documentToDelete : Option AppDocument
deriving DecidableEq, Repr

/-- Calls to the mock API initiated by a UI handler. -/
inductive UICall
  | createCall (formData : FormDataV)
  | deleteCall (docId : Nat)
deriving DecidableEq, Repr

/-- Synchronous initiation of `handleFormSubmit`
(src/app/api/upload/upload.js lines 591-599; the same guard appears in
src/index.tsx lines 510-522): up to the point the create request is
issued. The handler returns immediately when `isSubmitting` is already
true; otherwise it sets the flag and issues the create call. -/
def handleFormSubmit (formData : FormDataV) (s : UIState) : UIState × List UICall :=
  if s.isSubmitting then (s, [])
  else (⟨true, s.documentToDelete⟩, [.createCall formData])

/-- Synchronous initiation of `handleConfirmDelete`
(src/app/api/upload/upload.js lines 537-545; same shape in src/index.tsx
lines 458-467): up to the point the delete request is issued. The handler
returns early only when `documentToDelete` is null; it performs no
`isSubmitting` check before setting the flag and issuing the call. -/
def handleConfirmDelete (s : UIState) : UIState × List UICall :=
  match s.documentToDelete with
  | none => (s, [])
  | some doc => (⟨true, s.documentToDelete⟩, [.deleteCall doc.id])

/-- Body of the blob object returned by a successful `put`. -/
structure BlobV where
  url : Str
deriving DecidableEq, Repr

/-- Request shape of the pages-router upload endpoint (src/api/upload.js):
HTTP method and the `filename` query parameter. -/
structure UploadReq where
  method : Str
  filename : Option Str
deriving DecidableEq, Repr

/-- Server-side configuration and blob-backend outcome for one request to
the upload endpoint. -/
structure HandlerEnv where
  token : Option Str
  putResult : Except Str BlobV
deriving Repr

/-- Response body of the upload endpoint: the error object or the blob. -/
inductive RespBody
  | errorBody (msg : Str)
  | blobBody (blob : BlobV)
deriving DecidableEq, Repr

/-- HTTP response of the upload endpoint. -/
structure HttpResp where
  status : Nat
  body : RespBody
deriving DecidableEq, Repr

/-- Handler of src/api/upload.js lines 9-37, as its control flow reads:
405 for a non-POST method, 500 when the write credential is absent, 400
when the `filename` query parameter is absent, then the result of `put`
(200 with the blob, or 500 with the thrown message). The source declares
`const token` twice in the same scope (lines 15 and 26), a JavaScript
SyntaxError; the second declaration binds the same value, and the
embedding reads it as the evident intent. -/
def handler (env : HandlerEnv) (req : UploadReq) : HttpResp :=
  if req.method != "POST".data then ⟨405, .errorBody "Method not allowed".data⟩
  else
    match env.token with
    | none => ⟨500, .errorBody "Missing BLOB_READ_WRITE_TOKEN".data⟩
    | some _ =>
      match req.filename with
      | none => ⟨400, .errorBody "Filename is required".data⟩
      | some _ =>
        match env.putResult with
        | .ok blob => ⟨200, .blobBody blob⟩
        | .error msg => ⟨500, .errorBody msg⟩

/-- Helper: the empty needle is found in every haystack (JavaScript
`hay.includes("")` is true). -/
theorem containsSub_nil (hay : Str) : containsSub [] hay = true := by
  cases hay <;> simp [containsSub, leadingMatch]

/-- Helper: the fold computing `maxId` is bounded below by its accumulator. -/
theorem le_foldl_maxId (docs : List AppDocument) (a : Nat) :
    a ≤ docs.foldl (fun m doc => max m doc.id) a := by
  induction docs generalizing a with
  | nil => exact Nat.le_refl a
  | cons d rest ih => exact Nat.le_trans (Nat.le_max_left a d.id) (ih (max a d.id))

/-- Helper: every member's id is bounded by the fold computing `maxId`. -/
theorem mem_le_foldl_maxId (docs : List AppDocument) (a : Nat) :
    ∀ doc ∈ docs, doc.id ≤ docs.foldl (fun m doc => max m doc.id) a := by
  induction docs generalizing a with
  | nil => intro doc h; cases h
  | cons d rest ih =>
    intro doc hd
    rcases List.mem_cons.mp hd with rfl | h
    · exact Nat.le_trans (Nat.le_max_right a doc.id) (le_foldl_maxId rest (max a doc.id))
    · exact ih (max a d.id) doc h

/-- Helper: every member's id is at most `maxId` of the list. -/
theorem le_maxId (docs : List AppDocument) : ∀ doc ∈ docs, doc.id ≤ maxId docs :=
  mem_le_foldl_maxId docs 0

/-- C5: for every document list and filter state, the visible subset equals
`documents.filter p` where `p` is the conjunction of division
match-or-all, status match-or-all, and case-insensitive substring match of
the search text against `name` or `fileName`; and with filters
all/all/empty-search the result is the full collection unchanged, in
original order. -/
theorem filteredDocs_is_conjunction_and_identity :
    (∀ (filters : Filters) (documents : List AppDocument),
      filteredDocs filters documents =
        documents.filter (fun doc =>
          (filters.division == allStr || doc.division == filters.division)
            && (filters.status == allStr || doc.status == filters.status)
            && (containsSub (lowerStr filters.search) (lowerStr doc.name)
                || containsSub (lowerStr filters.search) (lowerStr doc.fileName))))
    ∧ (∀ documents : List AppDocument,
        filteredDocs ⟨allStr, allStr, []⟩ documents = documents) := by
  constructor
  · intro filters documents
    unfold filteredDocs
    congr 1
    funext doc
    unfold docMatches
    cases containsSub (lowerStr filters.search) (lowerStr doc.name)
        || containsSub (lowerStr filters.search) (lowerStr doc.fileName) <;>
      cases filters.division == allStr || doc.division == filters.division <;>
      cases filters.status == allStr || doc.status == filters.status <;> rfl
  · intro documents
    refine List.filter_eq_self.mpr ?_
    intro doc _
    simp [docMatches, lowerStr, containsSub_nil]

/-- C6: a create whose file is absent or empty fails with the validation
error, issues no network call, and leaves the state (in particular the
stored collection and its length) unchanged. -/
theorem create_empty_file_validation (env : Remote.CreateEnv) (formData : FormDataV)
    (s : Remote.State)
    (h : formData.file = none ∨ ∃ file, formData.file = some file ∧ file.size = 0) :
    Remote.mockApiCreateDocument env formData s = (⟨false, 400, .validationError⟩, s, []) := by
  rcases h with h | ⟨file, hf, hs⟩
  · simp [Remote.mockApiCreateDocument, h]
  · simp [Remote.mockApiCreateDocument, hf, hs]

/-- Witness for C6 at a concrete empty-file form and a one-element store. -/
theorem create_empty_file_validation_witness :
    Remote.mockApiCreateDocument ⟨.ok (some ['u']), .success true, true⟩
        ⟨some ⟨['a'], 0⟩, ['n'], ['d'], ['s']⟩
        ⟨[⟨1, ['n'], ['d'], ['s'], ['f'], ['u']⟩], []⟩
      = (⟨false, 400, .validationError⟩, ⟨[⟨1, ['n'], ['d'], ['s'], ['f'], ['u']⟩], []⟩, []) :=
  create_empty_file_validation _ _ _ (Or.inr ⟨⟨['a'], 0⟩, rfl, rfl⟩)

/-- C10: starting from the initial module state, loading a present but
unparseable persisted value resets the database to the empty list, leaves
the id counter at 0, and a subsequent list operation succeeds with the
empty collection. -/
theorem corrupt_storage_load_resets :
    Local.loadDatabase .corrupt Local.initState = ⟨[], 0, []⟩
      ∧ Local.mockApiFetchDocuments (Local.loadDatabase .corrupt Local.initState)
          = (true, 200, []) := by
  exact ⟨rfl, rfl⟩

/-- C2: when the blob upload step fails (non-ok response, thrown network
error, or ok response without a url), the whole create fails with the
upload-stage error, the state is unchanged (the stored collection after the
failed operation is identical to the one before), and only the upload call
was issued — no metadata write. -/
theorem create_upload_failure_no_metadata (env : Remote.CreateEnv) (formData : FormDataV)
    (s : Remote.State) (file : FileV)
    (hfile : formData.file = some file) (hsize : file.size ≠ 0)
    (hupload : ∀ url, env.upload ≠ .ok (some url)) :
    ∃ msg, Remote.mockApiCreateDocument env formData s
      = (⟨false, 500, .uploadError msg⟩, s, [.uploadCall]) := by
  cases hu : env.upload with
  | ok url =>
    cases url with
    | none =>
      exact ⟨"File upload failed: Blob storage response did not include a URL.".data,
        by simp [Remote.mockApiCreateDocument, hfile, hsize, hu]⟩
    | some u => exact absurd hu (hupload u)
  | httpError status text =>
    exact ⟨"File upload failed: Failed to upload file to blob storage: ".data
        ++ (toString status).data ++ " ".data ++ text,
      by simp [Remote.mockApiCreateDocument, hfile, hsize, hu]⟩
  | networkError msg =>
    exact ⟨"File upload failed: ".data ++ msg,
      by simp [Remote.mockApiCreateDocument, hfile, hsize, hu]⟩

/-- Witness for C2: a concrete gateway failure against a one-element store. -/
theorem create_upload_failure_no_metadata_witness :
    ∃ msg, Remote.mockApiCreateDocument ⟨.httpError 503 ['x'], .success true, true⟩
        ⟨some ⟨['a'], 3⟩, ['n'], ['d'], ['s']⟩
        ⟨[⟨1, ['n'], ['d'], ['s'], ['f'], ['u']⟩], []⟩
      = (⟨false, 500, .uploadError msg⟩, ⟨[⟨1, ['n'], ['d'], ['s'], ['f'], ['u']⟩], []⟩,
          [.uploadCall]) :=
  create_upload_failure_no_metadata _ _ _ ⟨['a'], 3⟩ rfl (by decide)
    (fun url h => Remote.UploadOutcome.noConfusion h)

/-- C4: a delete whose target id matches no record in the current
collection fails with not-found (status 404) and leaves the state
unchanged, issuing no write: the remote variant stops after its read (only
the fetch call is issued), and the localStorage variant leaves its state
untouched. -/
theorem delete_not_found_unchanged (env : Remote.DeleteEnv) (docId : Nat)
    (s : Remote.State) (t : Local.State)
    (hfetch : env.fetch = .success true)
    (hremote : ∀ doc ∈ s.collection, doc.id ≠ docId)
    (hlocal : ∀ doc ∈ t.mockDatabase, doc.id ≠ docId) :
    Remote.mockApiDeleteDocument env docId s = (⟨false, 404, .notFoundMsg⟩, s, [.fetchCall])
      ∧ Local.mockApiDeleteDocument docId t = (⟨false, 404, .notFoundMsg⟩, t) := by
  constructor
  · have hfil : s.collection.filter (fun doc => doc.id != docId) = s.collection :=
      List.filter_eq_self.mpr (fun doc hd => by simp [hremote doc hd])
    simp [Remote.mockApiDeleteDocument, hfetch, Remote.mockApiFetchDocuments, hfil]
  · have hany : t.mockDatabase.any (fun doc => doc.id == docId) = false := by
      simp only [List.any_eq_false]
      intro doc hd
      simp [hremote, hlocal doc hd]
    simp [Local.mockApiDeleteDocument, hany]

/-- Witness for C4: deleting id 2 from stores holding only id 1. -/
theorem delete_not_found_unchanged_witness :
    Remote.mockApiDeleteDocument ⟨.success true, true⟩ 2
        ⟨[⟨1, ['n'], ['d'], ['s'], ['f'], ['u']⟩], []⟩
      = (⟨false, 404, .notFoundMsg⟩, ⟨[⟨1, ['n'], ['d'], ['s'], ['f'], ['u']⟩], []⟩,
          [.fetchCall])
      ∧ Local.mockApiDeleteDocument 2 ⟨[⟨1, ['n'], ['d'], ['s'], ['f'], ['u']⟩], 1, []⟩
        = (⟨false, 404, .notFoundMsg⟩, ⟨[⟨1, ['n'], ['d'], ['s'], ['f'], ['u']⟩], 1, []⟩) :=
  delete_not_found_unchanged _ _ _ _ rfl (by decide) (by decide)

/-- Environment in which every network interaction of a remote create
succeeds, with blob url `u`. -/
def okCreateEnv : Remote.CreateEnv := ⟨.ok (some ['u']), .success true, true⟩

/-- Sample upload form with a one-byte file named `f`. -/
def sampleForm : FormDataV := ⟨some ⟨['f'], 1⟩, ['n'], ['d'], ['s']⟩

/-- State after the first create of the id-reuse scenario. -/
def c1State1 : Remote.State :=
  (Remote.mockApiCreateDocument okCreateEnv sampleForm ⟨[], []⟩).2.1

/-- Response of the second create of the id-reuse scenario. -/
def c1Resp2 : CreateResp :=
  (Remote.mockApiCreateDocument okCreateEnv sampleForm c1State1).1

/-- State after the second create of the id-reuse scenario. -/
def c1State2 : Remote.State :=
  (Remote.mockApiCreateDocument okCreateEnv sampleForm c1State1).2.1

/-- Result of deleting id 2 in the id-reuse scenario. -/
def c1Del : DeleteResp × Remote.State × List Remote.Ev :=
  Remote.mockApiDeleteDocument ⟨.success true, true⟩ 2 c1State2

/-- Response of the create performed after that delete. -/
def c1Resp4 : CreateResp :=
  (Remote.mockApiCreateDocument okCreateEnv sampleForm c1Del.2.1).1

/-- C1 counterexample: in the sequence create, create, delete 2, create
(every network interaction succeeding, starting from the empty store), the
second create assigns id 2, the delete succeeds and removes it, and the
following create assigns id 2 again — the same id is assigned twice across
a create/delete sequence, refuting the never-reused part of the claim. -/
theorem create_id_reused_after_delete_counterexample :
    createdId c1Resp2 = some 2
      ∧ c1Del.1.ok = true
      ∧ (∀ doc ∈ c1Del.2.1.collection, doc.id ≠ 2)
      ∧ createdId c1Resp4 = some 2 := by decide

/-- C1 amended: a fully successful remote create (readable collection,
upload returning a url, successful PUT) assigns id `maxId + 1`, appends the
new record, and the assigned id differs from every id currently in the
collection; ids are fresh at each moment but may repeat across sequences
once the maximum id has been deleted. -/
theorem create_assigns_max_plus_one (env : Remote.CreateEnv) (formData : FormDataV)
    (s : Remote.State) (file : FileV) (url : Str)
    (hfile : formData.file = some file) (hsize : file.size ≠ 0)
    (hupload : env.upload = .ok (some url)) (hfetch : env.fetch = .success true)
    (hput : env.putOk = true) :
    ∃ doc, Remote.mockApiCreateDocument env formData s
        = (⟨true, 201, .created doc⟩,
            ⟨s.collection ++ [doc], (doc.id, file) :: s.fileStore⟩,
            [.uploadCall, .fetchCall, .putCall])
      ∧ doc.id = maxId s.collection + 1
      ∧ ∀ d ∈ s.collection, d.id ≠ doc.id := by
  refine ⟨⟨maxId s.collection + 1, formData.name, formData.division, formData.status,
      file.name, url⟩, ?_, rfl, ?_⟩
  · simp [Remote.mockApiCreateDocument, Remote.mockApiFetchDocuments,
      hfile, hsize, hupload, hfetch, hput]
  · intro d hd h
    have hle := le_maxId s.collection d hd
    simp at h
    omega

/-- Witness for the amended C1: creating over a collection whose single
record has id 5 assigns id 6. -/
theorem create_assigns_max_plus_one_witness :
    ∃ doc, Remote.mockApiCreateDocument okCreateEnv sampleForm
        ⟨[⟨5, ['n'], ['d'], ['s'], ['f'], ['u']⟩], []⟩
        = (⟨true, 201, .created doc⟩,
            ⟨[⟨5, ['n'], ['d'], ['s'], ['f'], ['u']⟩] ++ [doc], (doc.id, ⟨['f'], 1⟩) :: []⟩,
            [.uploadCall, .fetchCall, .putCall])
      ∧ doc.id = maxId [⟨5, ['n'], ['d'], ['s'], ['f'], ['u']⟩] + 1
      ∧ ∀ d ∈ [(⟨5, ['n'], ['d'], ['s'], ['f'], ['u']⟩ : AppDocument)], d.id ≠ doc.id :=
  create_assigns_max_plus_one _ _ _ ⟨['f'], 1⟩ ['u'] rfl (by decide) rfl rfl rfl

/-- Document and UI state of an in-flight delete submission. -/
def busyDoc : AppDocument := ⟨7, ['n'], ['d'], ['s'], ['f'], ['u']⟩

/-- UI state with `isSubmitting` already true and a pending delete target. -/
def busyState : UIState := ⟨true, some busyDoc⟩

/-- C3 counterexample: with `isSubmitting` already true and a delete target
still set, invoking the delete-confirm handler again issues a second delete
network call — it is not the claimed no-op. -/
theorem delete_submit_not_guarded_counterexample :
    busyState.isSubmitting = true
      ∧ (handleConfirmDelete busyState).2 = [.deleteCall 7] := by decide

/-- C3 amended: while `isSubmitting` is true a second create submission is
ignored as a no-op (no state change, no network call); the delete-confirm
handler is guarded only by `documentToDelete` — it is a no-op exactly when
no delete target is set, and with a target set it issues the delete call
regardless of `isSubmitting`. -/
theorem submission_guards (formData : FormDataV) (s t u : UIState) (doc : AppDocument)
    (hs : s.isSubmitting = true)
    (ht : t.documentToDelete = none)
    (hu : u.documentToDelete = some doc) :
    handleFormSubmit formData s = (s, [])
      ∧ handleConfirmDelete t = (t, [])
      ∧ (handleConfirmDelete u).2 = [.deleteCall doc.id] := by
  refine ⟨?_, ?_, ?_⟩
  · simp [handleFormSubmit, hs]
  · simp [handleConfirmDelete, ht]
  · simp [handleConfirmDelete, hu]

/-- Witness for the amended C3 at concrete UI states. -/
theorem submission_guards_witness :
    handleFormSubmit sampleForm ⟨true, none⟩ = (⟨true, none⟩, [])
      ∧ handleConfirmDelete ⟨false, none⟩ = (⟨false, none⟩, [])
      ∧ (handleConfirmDelete busyState).2 = [.deleteCall busyDoc.id] :=
  submission_guards sampleForm ⟨true, none⟩ ⟨false, none⟩ busyState busyDoc rfl rfl rfl

/-- C8: when the read of the current collection fails during a remote
create (the fetch returns its failure value), the create does not abort: it
assigns id 1 and, with the PUT succeeding, replaces the entire stored
collection by the one-element list holding only the new document,
discarding every previously stored record. -/
theorem create_fetch_failure_overwrites (env : Remote.CreateEnv) (formData : FormDataV)
    (s : Remote.State) (file : FileV) (url : Str)
    (hfile : formData.file = some file) (hsize : file.size ≠ 0)
    (hupload : env.upload = .ok (some url))
    (hfetch : ∃ msg, Remote.mockApiFetchDocuments s.collection env.fetch = .error msg)
    (hput : env.putOk = true) :
    ∃ doc, Remote.mockApiCreateDocument env formData s
        = (⟨true, 201, .created doc⟩, ⟨[doc], (doc.id, file) :: s.fileStore⟩,
            [.uploadCall, .fetchCall, .putCall])
      ∧ doc.id = 1 := by
  obtain ⟨msg, hm⟩ := hfetch
  refine ⟨⟨1, formData.name, formData.division, formData.status, file.name, url⟩, ?_, rfl⟩
  simp [Remote.mockApiCreateDocument, hfile, hsize, hupload, hm, hput]

/-- Witness for C8: the previously stored record with id 3 is discarded and
the new document gets id 1. -/
theorem create_fetch_failure_overwrites_witness :
    ∃ doc, Remote.mockApiCreateDocument ⟨.ok (some ['u']), .networkError ['e'], true⟩
        sampleForm ⟨[⟨3, ['n'], ['d'], ['s'], ['f'], ['u']⟩], []⟩
        = (⟨true, 201, .created doc⟩, ⟨[doc], (doc.id, ⟨['f'], 1⟩) :: []⟩,
            [.uploadCall, .fetchCall, .putCall])
      ∧ doc.id = 1 :=
  create_fetch_failure_overwrites _ _ _ ⟨['f'], 1⟩ ['u'] rfl (by decide) rfl ⟨['e'], rfl⟩ rfl

/-- Run of the remote create in which the collection read fails and the
metadata PUT fails, over a store already holding a record with id 1. -/
def c9Run : CreateResp × Remote.State × List Remote.Ev :=
  Remote.mockApiCreateDocument ⟨.ok (some ['u']), .networkError ['e'], false⟩ sampleForm
    ⟨[⟨1, ['n'], ['d'], ['s'], ['f'], ['u']⟩], []⟩

/-- C9 counterexample: a create whose metadata-stage write fails after the
collection read also failed caches the file under id 1, and every id in the
cache afterwards does occur in the stored collection (the old record with
id 1 is still persisted) — refuting that the cache then holds an id that
was never persisted. -/
theorem cache_entry_id_persisted_counterexample :
    isMetadataError c9Run.1.payload = true
      ∧ c9Run.2.1.fileStore = [(1, ⟨['f'], 1⟩)]
      ∧ ∀ p ∈ c9Run.2.1.fileStore, ∃ doc ∈ c9Run.2.1.collection, doc.id = p.1 := by decide

/-- C9 amended: the remote create inserts the uploaded file into the
session cache under the new id before attempting the metadata write and
does not roll it back on failure; when the collection read succeeded and
the PUT fails, the cached id (`maxId + 1`) occurs nowhere in the stored
collection, which is left unchanged. When the read also fails the cached id
is 1, which can coincide with a persisted record's id. -/
theorem create_metadata_failure_cache_not_rolled_back (env : Remote.CreateEnv)
    (formData : FormDataV) (s : Remote.State) (file : FileV) (url : Str)
    (hfile : formData.file = some file) (hsize : file.size ≠ 0)
    (hupload : env.upload = .ok (some url)) (hfetch : env.fetch = .success true)
    (hput : env.putOk = false) :
    ∃ msg, Remote.mockApiCreateDocument env formData s
        = (⟨false, 500, .metadataError msg⟩,
            ⟨s.collection, (maxId s.collection + 1, file) :: s.fileStore⟩,
            [.uploadCall, .fetchCall, .putCall])
      ∧ storeGet ((maxId s.collection + 1, file) :: s.fileStore) (maxId s.collection + 1)
          = some file
      ∧ ∀ doc ∈ s.collection, doc.id ≠ maxId s.collection + 1 := by
  refine ⟨"Metadata update failed: Failed to update metadata database".data, ?_, ?_, ?_⟩
  · simp [Remote.mockApiCreateDocument, Remote.mockApiFetchDocuments,
      hfile, hsize, hupload, hfetch, hput]
  · simp [storeGet]
  · intro doc hd h
    have hle := le_maxId s.collection doc hd
    omega

/-- Witness for the amended C9 over a store holding a record with id 4. -/
theorem create_metadata_failure_cache_not_rolled_back_witness :
    ∃ msg, Remote.mockApiCreateDocument ⟨.ok (some ['u']), .success true, false⟩ sampleForm
        ⟨[⟨4, ['n'], ['d'], ['s'], ['f'], ['u']⟩], []⟩
        = (⟨false, 500, .metadataError msg⟩,
            ⟨[⟨4, ['n'], ['d'], ['s'], ['f'], ['u']⟩],
              (maxId [⟨4, ['n'], ['d'], ['s'], ['f'], ['u']⟩] + 1, ⟨['f'], 1⟩) :: []⟩,
            [.uploadCall, .fetchCall, .putCall])
      ∧ storeGet ((maxId [⟨4, ['n'], ['d'], ['s'], ['f'], ['u']⟩] + 1, ⟨['f'], 1⟩) :: [])
          (maxId [⟨4, ['n'], ['d'], ['s'], ['f'], ['u']⟩] + 1) = some ⟨['f'], 1⟩
      ∧ ∀ doc ∈ [(⟨4, ['n'], ['d'], ['s'], ['f'], ['u']⟩ : AppDocument)],
          doc.id ≠ maxId [⟨4, ['n'], ['d'], ['s'], ['f'], ['u']⟩] + 1 :=
  create_metadata_failure_cache_not_rolled_back _ _ _ ⟨['f'], 1⟩ ['u'] rfl (by decide)
    rfl rfl rfl

/-- C7: response contract of the upload endpoint as its control flow reads
(the source itself cannot run, see the doc comment of `handler`): a
non-POST method yields 405; a POST without a configured write credential
yields 500 with an error body; a POST with credential but no filename
yields 400; and a POST with credential, filename, and successful blob put
yields 200 carrying the blob's url. -/
theorem upload_endpoint_statuses (env : HandlerEnv) (req : UploadReq) :
    (req.method ≠ "POST".data → (handler env req).status = 405)
    ∧ (req.method = "POST".data → env.token = none →
        handler env req = ⟨500, .errorBody "Missing BLOB_READ_WRITE_TOKEN".data⟩)
    ∧ (∀ tok, req.method = "POST".data → env.token = some tok → req.filename = none →
        (handler env req).status = 400)
    ∧ (∀ tok fn blob, req.method = "POST".data → env.token = some tok →
        req.filename = some fn → env.putResult = .ok blob →
        handler env req = ⟨200, .blobBody blob⟩) := by
  refine ⟨?_, ?_, ?_, ?_⟩
  · intro h
    simp [handler, h]
  · intro hm ht
    simp [handler, hm, ht]
  · intro tok hm ht hf
    simp [handler, hm, ht, hf]
  · intro tok fn blob hm ht hf hp
    simp [handler, hm, ht, hf, hp]

/-- Witness for C7: a GET yields 405 and a fully well-formed POST yields
200 with the blob. -/
theorem upload_endpoint_statuses_witness :
    (handler ⟨some ['t'], .ok ⟨['u']⟩⟩ ⟨"GET".data, some ['f']⟩).status = 405
      ∧ handler ⟨some ['t'], .ok ⟨['u']⟩⟩ ⟨"POST".data, some ['f']⟩ = ⟨200, .blobBody ⟨['u']⟩⟩ :=
  ⟨(upload_endpoint_statuses ⟨some ['t'], .ok ⟨['u']⟩⟩ ⟨"GET".data, some ['f']⟩).1 (by decide),
    (upload_endpoint_statuses ⟨some ['t'], .ok ⟨['u']⟩⟩ ⟨"POST".data, some ['f']⟩).2.2.2
      ['t'] ['f'] ⟨['u']⟩ rfl rfl rfl rfl⟩
